import Mathlib

/-!
Shallow embedding of the in-memory key-value store's command layer
(`app/command.go`) and the parts of the keyspace store, transaction
machine and protocol value type that it uses.

Conventions:
* Go functions become Lean functions; the global `db` and the per-connection
  `*ClientConn` are threaded explicitly as state.
* A Go runtime panic (out-of-range slice index) is modelled as `none` in an
  `Option` result.
* Definitions whose Go source is not in the repository snapshot (the database
  file defining `RespData`, `db` and its methods, and the MULTI/EXEC/DISCARD
  handlers) carry a doc comment starting `Modelled from the spec:`.
-/

/-- RESP value type tags, as in the protocol codec (`RespData.Type` in Go). -/
inductive RType where
  | SimpleString
  | BulkString
  | Error
  | Integer
  | Array
deriving DecidableEq, Repr

/-- Modelled from the spec: the `RespData` struct itself is defined in the
repository's protocol-codec file, which is not under the provided sources;
its shape (fields `Type`, `Str`, `Num`, `IsNull`, `Array`) follows the spec's
`ProtocolValue` tagged union and the field uses visible in `command.go`.
The Go field `Type` is named `ty` here (Lean keyword) and `Array` is `Arr`. -/
inductive RespData where
  | mk (ty : RType) (Str : String) (Num : Int) (IsNull : Bool) (Arr : List RespData)

/-- Accessor for the `Type` field. -/
def RespData.ty : RespData → RType
  | .mk t _ _ _ _ => t

/-- Accessor for the `Str` field. -/
def RespData.Str : RespData → String
  | .mk _ s _ _ _ => s

/-- Accessor for the `IsNull` field. -/
def RespData.IsNull : RespData → Bool
  | .mk _ _ _ n _ => n

/-- Accessor for the `Array` field. -/
def RespData.Arr : RespData → List RespData
  | .mk _ _ _ _ a => a

/-- `RespData{Type: SimpleString, Str: s}` -/
def RespData.simple (s : String) : RespData := .mk .SimpleString s 0 false []

/-- `RespData{Type: BulkString, Str: s}` -/
def RespData.bulk (s : String) : RespData := .mk .BulkString s 0 false []

/-- `RespData{Type: Error, Str: s}` -/
def RespData.err (s : String) : RespData := .mk .Error s 0 false []

/-- `RespData{Type: BulkString, IsNull: true}` -/
def RespData.nullBulk : RespData := .mk .BulkString "" 0 true []

/-- `RespData{Type: Array, IsNull: true}` -/
def RespData.nullArr : RespData := .mk .Array "" 0 true []

/-- `RespData{Type: Array, Array: xs}` -/
def RespData.arr (xs : List RespData) : RespData := .mk .Array "" 0 false xs

/-- `type Command struct { cmd string; args []string }` -/
structure Command where
  cmd : String
  args : List String
deriving DecidableEq, Repr

/-- `type ClientConn struct { conn net.Conn; transactionQueue []Command;
isTransaction bool }`.  The socket handle `conn` is an I/O resource and is
not part of the embedded state. -/
structure ClientConn where
  transactionQueue : List Command
  isTransaction : Bool
deriving DecidableEq, Repr

/-- Modelled from the spec: the keyspace value union (§3) — a key holds a
string, a list, or an append-only stream.  The database file defining it is
not under the provided sources. -/
inductive Val where
  | str (s : String)
  | list (xs : List String)
  | stream (entries : List (Nat × Nat × List (String × String)))
deriving DecidableEq, Repr

/-- Modelled from the spec: the global `db` object.  `M` is the shared
key-to-value mapping iterated by `handleKeysCommand`; `dir`, `dbfilename`
and `port` are the configuration fields read and written by
`handleConfigGet`/`handleConfigSet`.  Per-key TTL metadata is omitted: it
requires a wall clock and no modelled operation consults it. -/
structure DB where
  M : List (String × Val)
  dir : String
  dbfilename : String
  port : String
deriving DecidableEq, Repr

/-- Association-list lookup in the keyspace mapping. -/
def DB.find (db : DB) (k : String) : Option Val :=
  (db.M.find? (fun p => p.1 = k)).map (·.2)

/-- Association-list update: overwrite in place if the key exists, else append. -/
def DB.setEntry (db : DB) (k : String) (v : Val) : DB :=
  if db.M.any (fun p => p.1 = k) then
    { db with M := db.M.map (fun p => if p.1 = k then (k, v) else p) }
  else
    { db with M := db.M ++ [(k, v)] }

/-- Modelled from the spec: `db.Add(key, value)` — `Set(key, value)` with no
TTL overwrites the key unconditionally with a string value (§4.2). -/
def DB.Add (db : DB) (k v : String) : DB := db.setEntry k (.str v)

/-- Modelled from the spec: `db.Addex(key, value, ms)` — `Set` with a
`PX` millisecond TTL.  The expiry timestamp itself is wall-clock state and is
not modelled; the value stored is the same string value. -/
def DB.Addex (db : DB) (k v : String) (_ms : Int) : DB := db.setEntry k (.str v)

/-- Modelled from the spec: `db.Get(key)` returns the string value or nil
when the key is absent (`Get(key) -> optional string`, §4.2). -/
def DB.Get (db : DB) (k : String) : Option String :=
  match db.find k with
  | some (.str s) => some s
  | _ => none

/-- Modelled from the spec: `db.Delete(key) -> bool` reports whether the key
existed and removes it (§4.2 `Delete(key) -> bool (existed)`). -/
def DB.Delete (db : DB) (k : String) : Bool × DB :=
  (db.M.any (fun p => p.1 = k), { db with M := db.M.filter (fun p => ¬ p.1 = k) })

/-- Go's `strconv.Atoi`: an optional sign followed by at least one decimal
digit (machine-word overflow is not modelled; no claim exercises it). -/
def goAtoi (s : String) : Option Int :=
  let core (ds : List Char) : Option Nat :=
    if ds = [] ∨ ¬ ds.all Char.isDigit then none
    else some (ds.foldl (fun acc c => acc * 10 + (c.toNat - 48)) 0)
  match s.toList with
  | '+' :: rest => (core rest).map Int.ofNat
  | '-' :: rest => (core rest).map (fun n => - Int.ofNat n)
  | l => (core l).map Int.ofNat

/-- Modelled from the spec: `db.Incr(key)`.  Per §4.2 it creates an absent
key with value `1` and fails with `NotAnIntegerError` when the current string
value does not parse as a base-10 integer; the call site
(`err := db.Incr(...)`, command.go:271) shows it returns only an error. -/
def DB.Incr (db : DB) (k : String) : Except String DB :=
  match db.find k with
  | none => .ok (db.Add k "1")
  | some (.str s) =>
      match goAtoi s with
      | some n => .ok (db.Add k (toString (n + 1)))
      | none => .error "ERR value is not an integer or out of range"
  | some _ => .error "ERR value is not an integer or out of range"

/-- Modelled from the spec: `db.GetType(key)` — `TypeOf(key) -> optional
TypeTag` (§4.2), nil when the key is absent. -/
def DB.GetType (db : DB) (k : String) : Option String :=
  match db.find k with
  | none => none
  | some (.str _) => some "string"
  | some (.list _) => some "list"
  | some (.stream _) => some "stream"

/-- Modelled from the spec: `db.SaveRDB()` calls the external persistence
collaborator (`Persist(keyspaceSnapshot) -> error`, §6); the format is opaque
to the core and the call is modelled as succeeding. -/
def DB.SaveRDB (_db : DB) : Except String Unit := .ok ()

/-- Go's `strings.ToLower`, mapped over the characters (command names and
subcommands are ASCII, where `Char.toLower` agrees with Go's lowering). -/
def goToLower (s : String) : String := ⟨s.data.map Char.toLower⟩

/-- The argument-collection loop of `parseCmd` (`for i, item := range r.Array[1:]`):
every element must be a bulk string; the first offender aborts with an error. -/
def parseArgs : List RespData → Except String (List String)
  | [] => .ok []
  | item :: rest =>
      if item.ty ≠ .BulkString then .error "expected bulk string"
      else (parseArgs rest).map (fun as => item.Str :: as)

/-- `parseCmd` (command.go:20-46): a `SimpleString "PING"` short-circuits to the
PING command; otherwise the input must be a non-empty array whose head (the
command name) and tail (the arguments) are all bulk strings. -/
def parseCmd (r : RespData) : Except String Command :=
  if r.ty = .SimpleString ∧ r.Str = "PING" then .ok ⟨"PING", []⟩
  else if r.ty ≠ .Array then .error "expected array"
  else match r.Arr with
    | [] => .error "expected at least one element in array"
    | first :: rest =>
        if first.ty ≠ .BulkString then .error "expected bulk string for command"
        else (parseArgs rest).map (fun as => ⟨first.Str, as⟩)

/-- `handleTypeCommand` (command.go:149-160). -/
def handleTypeCommand (cmd : Command) (db : DB) : RespData :=
  match cmd.args with
  | [k] =>
      (match db.GetType k with
       | none => .simple "none"
       | some t => .simple t)
  | _ => .err "ERR wrong number of arguments for 'type' command"

/-- `handleSetCommand` (command.go:163-176): two arguments set the key; four
arguments with `PX` parse a millisecond expiry; any other shape is an arity
error. -/
def handleSetCommand (cmd : Command) (db : DB) : RespData × DB :=
  match cmd.args with
  | [k, v] => (.simple "OK", db.Add k v)
  | [k, v, px, ms] =>
      if goToLower px = "px" then
        match goAtoi ms with
        | none => (.err "wrong numeric value for expiry", db)
        | some num => (.simple "OK", db.Addex k v num)
      else (.err "ERR wrong number of arguments for 'set' command", db)
  | _ => (.err "ERR wrong number of arguments for 'set' command", db)

/-- `handleGetCommand` (command.go:178-188). -/
def handleGetCommand (cmd : Command) (db : DB) : RespData :=
  match cmd.args with
  | [k] =>
      (match db.Get k with
       | none => .nullBulk
       | some v => .bulk v)
  | _ => .err "ERR wrong number of arguments for 'get' command"

/-- `handleConfigGet` (command.go:205-234): known parameters reply with a
`[name, value]` array; an unknown parameter replies with the null array. -/
def handleConfigGet (param : String) (db : DB) : RespData :=
  if param = "dir" then .arr [.bulk "dir", .bulk db.dir]
  else if param = "dbfilename" then .arr [.bulk "dbfilename", .bulk db.dbfilename]
  else if param = "port" then .arr [.bulk "port", .bulk db.port]
  else .nullArr

/-- `handleConfigSet` (command.go:236-247): only `dir` and `dbfilename` are
settable; anything else (including `port`) is an error reply. -/
def handleConfigSet (param value : String) (db : DB) : RespData × DB :=
  if param = "dir" then (.simple "OK", { db with dir := value })
  else if param = "dbfilename" then (.simple "OK", { db with dbfilename := value })
  else (.err "ERR unsupported config parameter", db)

/-- `handleConfigCommand` (command.go:190-203): fewer than two arguments is an
arity error; the `set` branch reads `cmd.args[2]`, which panics (`none`) when
exactly two arguments were given. -/
def handleConfigCommand (cmd : Command) (db : DB) : Option (RespData × DB) :=
  match cmd.args with
  | a0 :: a1 :: rest =>
      if goToLower a0 = "get" then some (handleConfigGet a1 db, db)
      else if goToLower a0 = "set" then
        match rest with
        | [] => none
        | v :: _ => some (handleConfigSet a1 v db)
      else some (.err "ERR unknown config subcommand", db)
  | _ => some (.err "ERR wrong number of arguments for config command", db)

/-- `handleKeysCommand` (command.go:249-264): the single pattern argument is
never inspected; the reply lists every key of `db.M`, or the null array when
the keyspace is empty. -/
def handleKeysCommand (cmd : Command) (db : DB) : RespData :=
  match cmd.args with
  | [_pattern] =>
      let keys := db.M.map (fun p => RespData.bulk p.1)
      if keys.length = 0 then .nullArr else .arr keys
  | _ => .err "ERR wrong number of arguments for 'keys' command"

/-- `handleIncrCommand` (command.go:266-276): on success the reply is the
simple string `OK` (not the incremented integer). -/
def handleIncrCommand (cmd : Command) (db : DB) : RespData × DB :=
  match cmd.args with
  | [k] =>
      (match db.Incr k with
       | .error e => (.err e, db)
       | .ok db' => (.simple "OK", db'))
  | _ => (.err "ERR wrong number of arguments for 'incr' command", db)

/-- `handleDeleteCommand` (command.go:289-297): the boolean returned by
`db.Delete` is discarded; the reply is `OK` whether or not the key existed. -/
def handleDeleteCommand (cmd : Command) (db : DB) : RespData × DB :=
  match cmd.args with
  | [k] => (.simple "OK", (db.Delete k).2)
  | _ => (.err "ERR wrong number of arguments for 'delete' command", db)

/-- Modelled from the spec: `handleLPushCommand` is not under the provided
sources.  Per §4.2/§4.3: validates arity, creates a list if the key is
absent, pushes at the head, replies with the new length, and fails with a
`WRONGTYPE` error on a non-list key. -/
def handleLPushCommand (cmd : Command) (db : DB) : RespData × DB :=
  match cmd.args with
  | k :: v :: vs =>
      (match db.find k with
       | none =>
           let xs := (v :: vs).reverse
           (.mk .Integer "" (Int.ofNat xs.length) false [], db.setEntry k (.list xs))
       | some (.list old) =>
           let xs := (v :: vs).reverse ++ old
           (.mk .Integer "" (Int.ofNat xs.length) false [], db.setEntry k (.list xs))
       | some _ => (.err "WRONGTYPE Operation against a key holding the wrong kind of value", db))
  | _ => (.err "ERR wrong number of arguments for 'lpush' command", db)

/-- Modelled from the spec: `handleRPushCommand` is not under the provided
sources.  Like LPUSH but appending at the tail. -/
def handleRPushCommand (cmd : Command) (db : DB) : RespData × DB :=
  match cmd.args with
  | k :: v :: vs =>
      (match db.find k with
       | none =>
           let xs := v :: vs
           (.mk .Integer "" (Int.ofNat xs.length) false [], db.setEntry k (.list xs))
       | some (.list old) =>
           let xs := old ++ (v :: vs)
           (.mk .Integer "" (Int.ofNat xs.length) false [], db.setEntry k (.list xs))
       | some _ => (.err "WRONGTYPE Operation against a key holding the wrong kind of value", db))
  | _ => (.err "ERR wrong number of arguments for 'lpush' command", db)

/-- Modelled from the spec: `handleLPopCommand` is not under the provided
sources.  `LPOP <key> [count]` removes and replies with head elements
(§4.2 `ListPop`). -/
def handleLPopCommand (cmd : Command) (db : DB) : RespData × DB :=
  match cmd.args with
  | [k] =>
      (match db.find k with
       | some (.list (x :: xs)) => (.bulk x, db.setEntry k (.list xs))
       | some (.list []) => (.nullBulk, db)
       | some _ => (.err "WRONGTYPE Operation against a key holding the wrong kind of value", db)
       | none => (.nullBulk, db))
  | [k, c] =>
      (match goAtoi c with
       | none => (.err "ERR value is not an integer or out of range", db)
       | some n =>
           match db.find k with
           | some (.list xs) =>
               let cnt := n.toNat
               (.arr ((xs.take cnt).map RespData.bulk), db.setEntry k (.list (xs.drop cnt)))
           | some _ => (.err "WRONGTYPE Operation against a key holding the wrong kind of value", db)
           | none => (.nullArr, db))
  | _ => (.err "ERR wrong number of arguments for 'lpop' command", db)

/-- Modelled from the spec: `handleRPopCommand` is not under the provided
sources.  Like LPOP but at the tail. -/
def handleRPopCommand (cmd : Command) (db : DB) : RespData × DB :=
  match cmd.args with
  | [k] =>
      (match db.find k with
       | some (.list xs) =>
           (match xs.reverse with
            | y :: ys => (.bulk y, db.setEntry k (.list ys.reverse))
            | [] => (.nullBulk, db))
       | some _ => (.err "WRONGTYPE Operation against a key holding the wrong kind of value", db)
       | none => (.nullBulk, db))
  | [k, c] =>
      (match goAtoi c with
       | none => (.err "ERR value is not an integer or out of range", db)
       | some n =>
           match db.find k with
           | some (.list xs) =>
               let cnt := n.toNat
               (.arr ((xs.reverse.take cnt).map RespData.bulk),
                db.setEntry k (.list (xs.reverse.drop cnt).reverse))
           | some _ => (.err "WRONGTYPE Operation against a key holding the wrong kind of value", db)
           | none => (.nullArr, db))
  | _ => (.err "ERR wrong number of arguments for 'rpop' command", db)

/-- Modelled from the spec: `handleLLenCommand` is not under the provided
sources.  Replies with the list length, `0` for an absent key. -/
def handleLLenCommand (cmd : Command) (db : DB) : RespData :=
  match cmd.args with
  | [k] =>
      (match db.find k with
       | some (.list xs) => .mk .Integer "" (Int.ofNat xs.length) false []
       | some _ => .err "WRONGTYPE Operation against a key holding the wrong kind of value"
       | none => .mk .Integer "" 0 false [])
  | _ => .err "ERR wrong number of arguments for 'llen' command"

/-- Modelled from the spec: `handleLRangeCommand` is not under the provided
sources.  §4.2 `ListRange`: negative indices count from the end, out-of-range
indices clamp, and an empty range yields the empty array. -/
def handleLRangeCommand (cmd : Command) (db : DB) : RespData :=
  match cmd.args with
  | [k, sS, eS] =>
      (match goAtoi sS, goAtoi eS with
       | some s, some e =>
           (match db.find k with
            | some (.list xs) =>
                let len : Int := Int.ofNat xs.length
                let s' := max 0 (if s < 0 then s + len else s)
                let e' := min (len - 1) (if e < 0 then e + len else e)
                if s' > e' then .arr []
                else .arr (((xs.drop s'.toNat).take (e' - s' + 1).toNat).map RespData.bulk)
            | none => .arr []
            | some _ => .err "WRONGTYPE Operation against a key holding the wrong kind of value")
       | _, _ => .err "ERR value is not an integer or out of range")
  | _ => .err "ERR wrong number of arguments for 'lrange' command"

/-- Id of the last entry of a stream, if any. -/
def streamLastId (es : List (Nat × Nat × List (String × String))) : Option (Nat × Nat) :=
  es.getLast?.map (fun e => (e.1, e.2.1))

/-- Strict (milliseconds, sequence) lexicographic order on stream ids. -/
def idLt (a b : Nat × Nat) : Bool :=
  a.1 < b.1 || (a.1 == b.1 && a.2 < b.2)

/-- Group an even-length field list into (field, value) pairs. -/
def pairUp : List String → Option (List (String × String))
  | [] => some []
  | [_] => none
  | f :: v :: rest => (pairUp rest).map (fun ps => (f, v) :: ps)

/-- Render a stream id as `ms-seq`. -/
def renderId (id : Nat × Nat) : String := toString id.1 ++ "-" ++ toString id.2

/-- Encode one stream entry as `[id, [field, value, ...]]`. -/
def encodeEntry (e : Nat × Nat × List (String × String)) : RespData :=
  .arr [.bulk (renderId (e.1, e.2.1)),
        .arr ((e.2.2).foldr (fun fv acc => .bulk fv.1 :: .bulk fv.2 :: acc) [])]

/-- Modelled from the spec: `handleXAddCommand` is not under the provided
sources.  §4.2 `StreamAppend`: validates or auto-generates the id (`*` or
`ms-*`), rejects an explicit id not strictly greater than the last id, and
replies with the generated id.  The wall clock used by a full `*` id is not
modelled; `*` continues from the last id. -/
def handleXAddCommand (cmd : Command) (db : DB) : RespData × DB :=
  match cmd.args with
  | k :: idSpec :: f :: v :: rest =>
      (match pairUp (f :: v :: rest) with
       | none => (.err "ERR wrong number of arguments for 'xadd' command", db)
       | some fields =>
           let es? : Option (List (Nat × Nat × List (String × String))) :=
             match db.find k with
             | some (.stream es) => some es
             | none => some []
             | some _ => none
           match es? with
           | none => (.err "WRONGTYPE Operation against a key holding the wrong kind of value", db)
           | some es =>
               let last := streamLastId es
               let newId : Option (Nat × Nat) :=
                 if idSpec = "*" then
                   some (match last with
                         | none => (0, 1)
                         | some (ms, sq) => (ms, sq + 1))
                 else match idSpec.splitOn "-" with
                   | [msS, "*"] =>
                       (msS.toNat?).map (fun ms =>
                         match last with
                         | some (lms, lsq) => if lms = ms then (ms, lsq + 1) else (ms, 0)
                         | none => (ms, if ms = 0 then 1 else 0))
                   | [msS, sqS] =>
                       (msS.toNat?).bind (fun ms => (sqS.toNat?).map (fun sq => (ms, sq)))
                   | _ => none
               match newId with
               | none => (.err "ERR Invalid stream ID specified as stream command argument", db)
               | some nid =>
                   let okId := match last with
                               | some l => idLt l nid
                               | none => idLt (0, 0) nid
                   if okId then
                     (.bulk (renderId nid), db.setEntry k (.stream (es ++ [(nid.1, nid.2, fields)])))
                   else
                     (.err "ERR The ID specified in XADD is equal or smaller than the target stream top item", db))
  | _ => (.err "ERR wrong number of arguments for 'xadd' command", db)

/-- Modelled from the spec: `handleXLenCommand` is not under the provided
sources.  Replies with the entry count, `0` for an absent key. -/
def handleXLenCommand (cmd : Command) (db : DB) : RespData :=
  match cmd.args with
  | [k] =>
      (match db.find k with
       | some (.stream es) => .mk .Integer "" (Int.ofNat es.length) false []
       | some _ => .err "WRONGTYPE Operation against a key holding the wrong kind of value"
       | none => .mk .Integer "" 0 false [])
  | _ => .err "ERR wrong number of arguments for 'xlen' command"

/-- Lower bound of an XRANGE query: `-` is the minimum; `ms` means `(ms, 0)`. -/
def xrangeGeStart (spec : String) (id : Nat × Nat) : Option Bool :=
  if spec = "-" then some true
  else match spec.splitOn "-" with
    | [msS, sqS] =>
        (msS.toNat?).bind (fun ms => (sqS.toNat?).map (fun sq =>
          ¬ idLt id (ms, sq)))
    | [msS] => (msS.toNat?).map (fun ms => ms ≤ id.1)
    | _ => none

/-- Upper bound of an XRANGE query: `+` is the maximum; `ms` covers every
sequence number of that millisecond. -/
def xrangeLeEnd (spec : String) (id : Nat × Nat) : Option Bool :=
  if spec = "+" then some true
  else match spec.splitOn "-" with
    | [msS, sqS] =>
        (msS.toNat?).bind (fun ms => (sqS.toNat?).map (fun sq =>
          ¬ idLt (ms, sq) id))
    | [msS] => (msS.toNat?).map (fun ms => id.1 ≤ ms)
    | _ => none

/-- Modelled from the spec: `handleXRangeCommand` is not under the provided
sources.  §4.2 `StreamRange`: inclusive bounds, `-`/`+` wildcards. -/
def handleXRangeCommand (cmd : Command) (db : DB) : RespData :=
  match cmd.args with
  | [k, sS, eS] =>
      (match db.find k with
       | some (.stream es) =>
           let sel := es.filter (fun e =>
             ((xrangeGeStart sS (e.1, e.2.1)).getD false) &&
             ((xrangeLeEnd eS (e.1, e.2.1)).getD false))
           .arr (sel.map encodeEntry)
       | some _ => .err "WRONGTYPE Operation against a key holding the wrong kind of value"
       | none => .arr [])
  | _ => .err "ERR wrong number of arguments for 'xrange' command"

/-- Modelled from the spec: `handleXReadCommand` is not under the provided
sources.  `XREAD [BLOCK <ms>] STREAMS <key> <id>...` replies per key with the
entries whose id is strictly greater than the given id (`$` = the stream's
last id).  The blocking wait itself (suspension, wake on append, timeout) is
a concurrency behavior outside this embedding; what is modelled is the
immediate re-check, with the no-data reply being the null array. -/
def handleXReadCommand (cmd : Command) (db : DB) : RespData :=
  let args :=
    match cmd.args with
    | b :: ms :: rest => if goToLower b = "block" ∧ (goAtoi ms).isSome then rest else cmd.args
    | _ => cmd.args
  match args with
  | strm :: rest =>
      if goToLower strm = "streams" ∧ rest.length % 2 = 0 ∧ 0 < rest.length then
        let n := rest.length / 2
        let results := ((rest.take n).zip (rest.drop n)).filterMap (fun p =>
          match db.find p.1 with
          | some (.stream es) =>
              let after : Option (Nat × Nat) :=
                if p.2 = "$" then streamLastId es
                else match p.2.splitOn "-" with
                  | [msS, sqS] =>
                      (msS.toNat?).bind (fun ms => (sqS.toNat?).map (fun sq => (ms, sq)))
                  | [msS] => (msS.toNat?).map (fun ms => (ms, 0))
                  | _ => none
              match after with
              | none => none
              | some a =>
                  let fresh := es.filter (fun e => idLt a (e.1, e.2.1))
                  if fresh.length = 0 then none
                  else some (.arr [.bulk p.1, .arr (fresh.map encodeEntry)])
          | _ => none)
        if results.length = 0 then .nullArr else .arr results
      else .err "ERR wrong number of arguments for 'xread' command"
  | _ => .err "ERR wrong number of arguments for 'xread' command"

/-- The non-control dispatch of `executeCommand` (the second `switch`,
command.go:64-123).  `none` models a Go panic: `ECHO` with no arguments
indexes `cmd.args[0]` (command.go:69), and `CONFIG SET` with a missing value
indexes `cmd.args[2]` (command.go:199). -/
def execCore (cmd : Command) (db : DB) : Option (RespData × DB) :=
  let low := goToLower cmd.cmd
  if low = "ping" then some (.simple "PONG", db)
  else if low = "echo" then
    match cmd.args with
    | [] => none
    | a :: _ => some (.bulk a, db)
  else if low = "set" then some (handleSetCommand cmd db)
  else if low = "delete" then some (handleDeleteCommand cmd db)
  else if low = "get" then some (handleGetCommand cmd db, db)
  else if low = "save" then
    match db.SaveRDB with
    | .error e => some (.err ("ERR " ++ e), db)
    | .ok _ => some (.simple "OK", db)
  else if low = "config" then handleConfigCommand cmd db
  else if low = "keys" then some (handleKeysCommand cmd db, db)
  else if low = "info" then some (.bulk "role:master", db)
  else if low = "incr" then some (handleIncrCommand cmd db)
  else if low = "lpush" then some (handleLPushCommand cmd db)
  else if low = "rpush" then some (handleRPushCommand cmd db)
  else if low = "lpop" then some (handleLPopCommand cmd db)
  else if low = "rpop" then some (handleRPopCommand cmd db)
  else if low = "llen" then some (handleLLenCommand cmd db, db)
  else if low = "lrange" then some (handleLRangeCommand cmd db, db)
  else if low = "type" then some (handleTypeCommand cmd db, db)
  else if low = "xadd" then some (handleXAddCommand cmd db)
  else if low = "xlen" then some (handleXLenCommand cmd db, db)
  else if low = "xrange" then some (handleXRangeCommand cmd db, db)
  else if low = "xread" then some (handleXReadCommand cmd db, db)
  else some (.err ("ERR unknown command '" ++ cmd.cmd ++ "'"), db)

/-- Replay of a transaction queue in original order against the shared
keyspace, collecting each command's individual reply (§4.4).  A panic in a
replayed command propagates as `none`. -/
def replayQueue : List Command → DB → Option (List RespData × DB)
  | [], db => some ([], db)
  | c :: cs, db =>
      match execCore c db with
      | none => none
      | some (r, db') =>
          match replayQueue cs db' with
          | none => none
          | some (rs, db'') => some (r :: rs, db'')

/-- Modelled from the spec: `handleMultiCommand` is not under the provided
sources.  §4.4: `Normal --MULTI--> Queuing` replies `OK`; `MULTI` while
already `Queuing` is an error reply with no state change. -/
def handleMultiCommand (clientConn : ClientConn) (db : DB) : RespData × ClientConn × DB :=
  if clientConn.isTransaction then
    (.err "ERR MULTI calls can not be nested", clientConn, db)
  else
    (.simple "OK", { clientConn with isTransaction := true }, db)

/-- Modelled from the spec: `handleExecCommand` is not under the provided
sources.  §4.4: from `Normal` it is an error reply; from `Queuing` every
queued command is executed in original order, the reply is the array of the
individual replies in order, and the queue is cleared. -/
def handleExecCommand (clientConn : ClientConn) (db : DB) : Option (RespData × ClientConn × DB) :=
  if clientConn.isTransaction then
    match replayQueue clientConn.transactionQueue db with
    | none => none
    | some (rs, db') =>
        some (.arr rs, { transactionQueue := [], isTransaction := false }, db')
  else
    some (.err "ERR EXEC without MULTI", clientConn, db)

/-- Modelled from the spec: `handleDiscardCommand` is not under the provided
sources.  §4.4: from `Queuing` the queue is cleared with no execution and the
reply is `OK`; from `Normal` it is an error reply. -/
def handleDiscardCommand (clientConn : ClientConn) (db : DB) : RespData × ClientConn × DB :=
  if clientConn.isTransaction then
    (.simple "OK", { transactionQueue := [], isTransaction := false }, db)
  else
    (.err "ERR DISCARD without MULTI", clientConn, db)

/-- `executeCommand` (command.go:49-124): the control commands MULTI, EXEC and
DISCARD are handled first; then, in a transaction outside replay
(`clientConn.isTransaction && !context`), the command is queued verbatim with
reply `QUEUED`; otherwise the non-control dispatch runs.  `none` models a Go
panic. -/
def executeCommand (cmd : Command) (clientConn : ClientConn) (context : Bool) (db : DB) :
    Option (RespData × ClientConn × DB) :=
  let low := goToLower cmd.cmd
  if low = "multi" then some (handleMultiCommand clientConn db)
  else if low = "exec" then handleExecCommand clientConn db
  else if low = "discard" then some (handleDiscardCommand clientConn db)
  else if clientConn.isTransaction && !context then
    some (.simple "QUEUED",
          { clientConn with transactionQueue := clientConn.transactionQueue ++ [cmd] },
          db)
  else
    (execCore cmd db).map (fun p => (p.1, clientConn, p.2))

/-- Run a sequence of client commands on one connection (the per-connection
read loop calling `executeCommand` with `context = false`), collecting the
replies. -/
def runSession : List Command → ClientConn → DB → Option (List RespData × ClientConn × DB)
  | [], s, db => some ([], s, db)
  | c :: cs, s, db =>
      match executeCommand c s false db with
      | none => none
      | some (r, s', db') =>
          match runSession cs s' db' with
          | none => none
          | some (rs, s'', db'') => some (r :: rs, s'', db'')

/-- A fresh connection: no transaction, empty queue. -/
def freshConn : ClientConn := ⟨[], false⟩

/-- An example database with an empty keyspace. -/
def db0 : DB := ⟨[], "/tmp", "dump.rdb", "6379"⟩

/-! ## Helper definitions and lemmas for the claim theorems -/

/-- The command names recognised by `executeCommand`'s two dispatch switches. -/
def supportedNames : List String :=
  ["multi", "exec", "discard", "ping", "echo", "set", "delete", "get", "save",
   "config", "keys", "info", "incr", "lpush", "rpush", "lpop", "rpop", "llen",
   "lrange", "type", "xadd", "xlen", "xrange", "xread"]

/-- Normalise a command name to lowercase. -/
def lowerCmd (c : Command) : Command := { c with cmd := goToLower c.cmd }

/-- Normalise the spelling of every queued command name. -/
def lowerConn (s : ClientConn) : ClientConn :=
  { s with transactionQueue := s.transactionQueue.map lowerCmd }

/-- Normalise the session component of an `executeCommand` result. -/
def lowerRes (r : RespData × ClientConn × DB) : RespData × ClientConn × DB :=
  (r.1, lowerConn r.2.1, r.2.2)

/-- `parseArgs` succeeds exactly when every element is a bulk string. -/
theorem parseArgs_ok_iff (l : List RespData) :
    (∃ as, parseArgs l = .ok as) ↔ ∀ x ∈ l, x.ty = .BulkString := by
  induction l with
  | nil => simp [parseArgs]
  | cons x xs ih =>
      by_cases hx : x.ty = .BulkString
      · simp [parseArgs, hx, ← ih]
        constructor
        · rintro ⟨as, has⟩
          cases h2 : parseArgs xs with
          | error e => rw [h2] at has; simp [Except.map] at has
          | ok as2 => exact ⟨as2, rfl⟩
        · rintro ⟨as, has⟩
          exact ⟨x.Str :: as, by rw [has]; rfl⟩
      · simp [parseArgs, hx]

/-- GET with any argument count other than one replies with its arity error. -/
theorem handleGetCommand_arity (cmd : Command) (db : DB) (h : cmd.args.length ≠ 1) :
    handleGetCommand cmd db = .err "ERR wrong number of arguments for 'get' command" := by
  obtain ⟨c, (_ | ⟨a, (_ | ⟨b, t⟩)⟩)⟩ := cmd <;> first | rfl | (simp at h)

/-- DELETE with any argument count other than one replies with its arity error
and leaves the keyspace unchanged. -/
theorem handleDeleteCommand_arity (cmd : Command) (db : DB) (h : cmd.args.length ≠ 1) :
    handleDeleteCommand cmd db = (.err "ERR wrong number of arguments for 'delete' command", db) := by
  obtain ⟨c, (_ | ⟨a, (_ | ⟨b, t⟩)⟩)⟩ := cmd <;> first | rfl | (simp at h)

/-- KEYS with any argument count other than one replies with its arity error. -/
theorem handleKeysCommand_arity (cmd : Command) (db : DB) (h : cmd.args.length ≠ 1) :
    handleKeysCommand cmd db = .err "ERR wrong number of arguments for 'keys' command" := by
  obtain ⟨c, (_ | ⟨a, (_ | ⟨b, t⟩)⟩)⟩ := cmd <;> first | rfl | (simp at h)

/-- TYPE with any argument count other than one replies with its arity error. -/
theorem handleTypeCommand_arity (cmd : Command) (db : DB) (h : cmd.args.length ≠ 1) :
    handleTypeCommand cmd db = .err "ERR wrong number of arguments for 'type' command" := by
  obtain ⟨c, (_ | ⟨a, (_ | ⟨b, t⟩)⟩)⟩ := cmd <;> first | rfl | (simp at h)

/-- INCR with any argument count other than one replies with its arity error
and leaves the keyspace unchanged. -/
theorem handleIncrCommand_arity (cmd : Command) (db : DB) (h : cmd.args.length ≠ 1) :
    handleIncrCommand cmd db = (.err "ERR wrong number of arguments for 'incr' command", db) := by
  obtain ⟨c, (_ | ⟨a, (_ | ⟨b, t⟩)⟩)⟩ := cmd <;> first | rfl | (simp at h)

/-- SET with an argument count other than two or four replies with its arity
error and leaves the keyspace unchanged. -/
theorem handleSetCommand_arity (cmd : Command) (db : DB)
    (h2 : cmd.args.length ≠ 2) (h4 : cmd.args.length ≠ 4) :
    handleSetCommand cmd db = (.err "ERR wrong number of arguments for 'set' command", db) := by
  obtain ⟨c, (_ | ⟨a1, (_ | ⟨a2, (_ | ⟨a3, (_ | ⟨a4, (_ | t)⟩)⟩)⟩)⟩)⟩ := cmd <;>
    first | rfl | (exact absurd rfl h2) | (exact absurd rfl h4)

/-! ## Claim theorems -/

/-- C1 (counterexample): on a fresh key, `MULTI; INCR k; INCR k; EXEC` makes
EXEC reply with the array `[OK, OK]` of simple strings, which is not the
array of integers `[1, 2]` the claim states. -/
theorem c1_counterexample :
    runSession [⟨"MULTI", []⟩, ⟨"INCR", ["k"]⟩, ⟨"INCR", ["k"]⟩, ⟨"EXEC", []⟩] freshConn db0
      = some ([.simple "OK", .simple "QUEUED", .simple "QUEUED",
               .arr [.simple "OK", .simple "OK"]],
              freshConn, db0.Add "k" "2")
    ∧ RespData.arr [.simple "OK", .simple "OK"]
        ≠ RespData.arr [.mk .Integer "" 1 false [], .mk .Integer "" 2 false []] := by
  exact ⟨rfl, by simp [RespData.arr, RespData.simple]⟩

/-- C1 (amended): after MULTI, queueing `INCR k` twice on a fresh key and
issuing EXEC, the EXEC reply is the array of the two commands' individual
replies in order — each being the simple string `OK`, because
`handleIncrCommand` replies `OK` rather than the incremented integer; the key
ends at value `"2"`. -/
theorem c1_amended :
    runSession [⟨"MULTI", []⟩, ⟨"INCR", ["k"]⟩, ⟨"INCR", ["k"]⟩, ⟨"EXEC", []⟩] freshConn db0
      = some ([.simple "OK", .simple "QUEUED", .simple "QUEUED",
               .arr [.simple "OK", .simple "OK"]],
              freshConn, db0.Add "k" "2") := by
  rfl

/-- C2: command execution is not total — `ECHO` with zero arguments indexes
`cmd.args[0]` and panics (modelled as `none`), and `CONFIG SET` with only a
subcommand and a parameter name indexes `cmd.args[2]` and panics, instead of
yielding a reply. -/
theorem c2_theorem :
    executeCommand ⟨"echo", []⟩ freshConn false db0 = none
    ∧ executeCommand ⟨"config", ["set", "dir"]⟩ freshConn false db0 = none := by
  exact ⟨rfl, rfl⟩

/-- C3: in the Queuing state (`isTransaction`), outside replay, any command
other than MULTI/EXEC/DISCARD is appended verbatim to the transaction queue,
the keyspace is unmodified, and the reply is the simple string `QUEUED`. -/
theorem c3_theorem (cmd : Command) (s : ClientConn) (db : DB)
    (h1 : goToLower cmd.cmd ≠ "multi") (h2 : goToLower cmd.cmd ≠ "exec")
    (h3 : goToLower cmd.cmd ≠ "discard") (h4 : s.isTransaction = true) :
    executeCommand cmd s false db
      = some (.simple "QUEUED",
              { s with transactionQueue := s.transactionQueue ++ [cmd] }, db) := by
  simp [executeCommand, h1, h2, h3, h4]

/-- C3 witness: a concrete `GET` queued on a session already holding one
queued command. -/
theorem c3_witness :
    executeCommand ⟨"GET", ["x"]⟩ ⟨[⟨"set", ["a", "b"]⟩], true⟩ false db0
      = some (.simple "QUEUED", ⟨[⟨"set", ["a", "b"]⟩, ⟨"GET", ["x"]⟩], true⟩, db0) :=
  c3_theorem ⟨"GET", ["x"]⟩ ⟨[⟨"set", ["a", "b"]⟩], true⟩ db0
    (by decide) (by decide) (by decide) rfl

/-- C4 (counterexample): `CONFIG` with one argument has a wrong number of
arguments, but its error message reads `ERR wrong number of arguments for
config command`, without the single quotes the claim requires. -/
theorem c4_counterexample :
    executeCommand ⟨"config", ["get"]⟩ freshConn false db0
      = some (.err "ERR wrong number of arguments for config command", freshConn, db0)
    ∧ "ERR wrong number of arguments for config command"
        ≠ "ERR wrong number of arguments for 'config' command" := by
  exact ⟨rfl, by decide⟩

/-- C4 (amended): for the string-family commands that check arity — GET,
DELETE, KEYS, TYPE, INCR (one argument) and SET (two or four arguments) — a
wrong argument count replies exactly `ERR wrong number of arguments for
'<name>' command` and leaves the keyspace and session unchanged; CONFIG's
arity message omits the quotes, ECHO panics instead of replying, and
PING/INFO/SAVE and the control commands ignore extra arguments. -/
theorem c4_amended (cmd : Command) (s : ClientConn) (db : DB)
    (hs : s.isTransaction = false)
    (h : (goToLower cmd.cmd ∈ ["get", "delete", "keys", "type", "incr"]
            ∧ cmd.args.length ≠ 1)
         ∨ (goToLower cmd.cmd = "set" ∧ cmd.args.length ≠ 2 ∧ cmd.args.length ≠ 4)) :
    executeCommand cmd s false db
      = some (.err ("ERR wrong number of arguments for '" ++ goToLower cmd.cmd ++ "' command"),
              s, db) := by
  rcases h with ⟨hmem, hlen⟩ | ⟨hlow, h2, h4⟩
  · simp only [List.mem_cons, List.not_mem_nil, or_false] at hmem
    rcases hmem with hlow|hlow|hlow|hlow|hlow
    · simp [executeCommand, execCore, hlow, hs, handleGetCommand_arity _ _ hlen]
    · simp [executeCommand, execCore, hlow, hs, handleDeleteCommand_arity _ _ hlen]
    · simp [executeCommand, execCore, hlow, hs, handleKeysCommand_arity _ _ hlen]
    · simp [executeCommand, execCore, hlow, hs, handleTypeCommand_arity _ _ hlen]
    · simp [executeCommand, execCore, hlow, hs, handleIncrCommand_arity _ _ hlen]
  · simp [executeCommand, execCore, hlow, hs, handleSetCommand_arity _ _ h2 h4]

/-- C4 witness: `GET` with no arguments on a fresh session. -/
theorem c4_witness :
    executeCommand ⟨"get", []⟩ freshConn false db0
      = some (.err "ERR wrong number of arguments for 'get' command", freshConn, db0) :=
  c4_amended ⟨"get", []⟩ freshConn db0 rfl (Or.inl ⟨by decide, by decide⟩)

/-- C5 (counterexample): `CONFIG GET` with an unknown parameter replies with
the null Array, which is not an Error protocol value. -/
theorem c5_counterexample :
    handleConfigGet "maxmemory" db0 = .nullArr
    ∧ RespData.nullArr.ty ≠ RType.Error := by
  exact ⟨rfl, by decide⟩

/-- C5 (amended): `CONFIG SET` with an unknown parameter replies with an
Error (the ConfigError case), but `CONFIG GET` with an unknown parameter
replies with the null Array, not an Error. -/
theorem c5_amended :
    (∀ (p : String) (db : DB), p ≠ "dir" → p ≠ "dbfilename" → p ≠ "port" →
        handleConfigGet p db = .nullArr)
    ∧ (∀ (p v : String) (db : DB), p ≠ "dir" → p ≠ "dbfilename" →
        handleConfigSet p v db = (.err "ERR unsupported config parameter", db)) := by
  constructor
  · intro p db h1 h2 h3
    simp [handleConfigGet, h1, h2, h3]
  · intro p v db h1 h2
    simp [handleConfigSet, h1, h2]

/-- C5 witness: an unknown parameter for both subcommands. -/
theorem c5_witness :
    handleConfigGet "maxmemory" db0 = .nullArr
    ∧ handleConfigSet "appendonly" "yes" db0 = (.err "ERR unsupported config parameter", db0) :=
  ⟨c5_amended.1 "maxmemory" db0 (by decide) (by decide) (by decide),
   c5_amended.2 "appendonly" "yes" db0 (by decide) (by decide)⟩

/-- C6 (counterexample): `CONFIG SET port v` does not store the value and
reply OK — it replies with an Error and leaves the database unchanged. -/
theorem c6_counterexample :
    handleConfigSet "port" "6380" db0 = (.err "ERR unsupported config parameter", db0)
    ∧ (RespData.err "ERR unsupported config parameter").ty ≠ RType.SimpleString := by
  exact ⟨rfl, by decide⟩

/-- C6 (amended): `CONFIG GET` supports all three of dir, dbfilename and port,
replying with the parameter name and its current value; `CONFIG SET` supports
only dir and dbfilename (storing the value and replying OK) and rejects port
with an error reply. -/
theorem c6_amended (db : DB) (v : String) :
    handleConfigGet "dir" db = .arr [.bulk "dir", .bulk db.dir]
    ∧ handleConfigGet "dbfilename" db = .arr [.bulk "dbfilename", .bulk db.dbfilename]
    ∧ handleConfigGet "port" db = .arr [.bulk "port", .bulk db.port]
    ∧ handleConfigSet "dir" v db = (.simple "OK", { db with dir := v })
    ∧ handleConfigSet "dbfilename" v db = (.simple "OK", { db with dbfilename := v })
    ∧ handleConfigSet "port" v db = (.err "ERR unsupported config parameter", db) :=
  ⟨rfl, rfl, rfl, rfl, rfl, rfl⟩

/-- C7 (counterexample): deleting a present key and deleting an absent key
produce the same observable outcome at the command level — the reply `OK`
(and here even the same final database). -/
theorem c7_counterexample :
    executeCommand ⟨"delete", ["k"]⟩ freshConn false (db0.Add "k" "v")
      = some (.simple "OK", freshConn, db0)
    ∧ executeCommand ⟨"delete", ["k"]⟩ freshConn false db0
      = some (.simple "OK", freshConn, db0) := by
  exact ⟨rfl, rfl⟩

/-- C7 (amended): the store operation `Delete` does report existence — it
returns true exactly when the key is present — but `handleDeleteCommand`
discards that boolean, so the DELETE command's reply is `OK` whether or not
the key existed. -/
theorem c7_amended :
    (∀ (db : DB) (k : String), (db.Delete k).1 = true ↔ (db.find k).isSome = true)
    ∧ (∀ (c k : String) (db : DB), (handleDeleteCommand ⟨c, [k]⟩ db).1 = .simple "OK") := by
  constructor
  · intro db k
    simp [DB.Delete, DB.find, List.any_eq_true, List.find?_isSome]
  · intro c k db
    rfl

/-- C7 witness: the store-level report on a concrete database holding the key. -/
theorem c7_witness :
    ((db0.Add "k" "v").Delete "k").1 = true ↔ (((db0.Add "k" "v").find "k").isSome = true) :=
  c7_amended.1 (db0.Add "k" "v") "k"

/-- C8 (counterexample): `parseCmd` succeeds on the simple string `PING`,
an input that is not an Array of bulk strings. -/
theorem c8_counterexample :
    parseCmd (.simple "PING") = .ok ⟨"PING", []⟩
    ∧ (RespData.simple "PING").ty ≠ RType.Array := by
  exact ⟨rfl, by decide⟩

/-- C8 (amended): apart from the special case of the simple string `PING`,
`parseCmd` succeeds exactly when its input is a decoded Array with at least
one element whose head and every subsequent element are bulk strings; every
other input fails with an error. -/
theorem c8_amended (r : RespData) (h : ¬ (r.ty = .SimpleString ∧ r.Str = "PING")) :
    (∃ c, parseCmd r = .ok c) ↔
      (r.ty = .Array ∧ r.Arr ≠ [] ∧ ∀ x ∈ r.Arr, x.ty = .BulkString) := by
  obtain ⟨ty, st, num, nl, items⟩ := r
  simp only [RespData.ty, RespData.Str, RespData.Arr] at h ⊢
  rw [parseCmd]
  simp only [RespData.ty, RespData.Str, RespData.Arr]
  rw [if_neg h]
  cases ty with
  | Array =>
      rw [if_neg (by simp)]
      cases items with
      | nil => simp
      | cons first rest =>
          obtain ⟨fty, fs, fn, fnl, fa⟩ := first
          dsimp only
          by_cases hf : fty = .BulkString
          · rw [if_neg (by simp [hf])]
            constructor
            · rintro ⟨c, hc⟩
              refine ⟨rfl, by simp, ?_⟩
              have hex : ∃ as, parseArgs rest = .ok as := by
                cases h2 : parseArgs rest with
                | error e => rw [h2] at hc; simp [Except.map] at hc
                | ok as2 => exact ⟨as2, rfl⟩
              intro x hx
              rcases List.mem_cons.mp hx with hx | hx
              · rw [hx]; simpa [RespData.ty] using hf
              · exact (parseArgs_ok_iff rest).1 hex x hx
            · rintro ⟨-, -, hall⟩
              rcases (parseArgs_ok_iff rest).2
                (fun x hx => hall x (List.mem_cons_of_mem _ hx)) with ⟨as, has⟩
              exact ⟨⟨fs, as⟩, by rw [has]; rfl⟩
          · rw [if_pos (by simp [hf])]
            constructor
            · rintro ⟨c, hc⟩; cases hc
            · rintro ⟨-, -, hall⟩
              have := hall (RespData.mk fty fs fn fnl fa) (List.mem_cons_self _ _)
              simp [RespData.ty] at this
              exact absurd this hf
  | SimpleString =>
      rw [if_pos (by simp)]
      constructor
      · rintro ⟨c, hc⟩; cases hc
      · rintro ⟨h1, -⟩; cases h1
  | BulkString =>
      rw [if_pos (by simp)]
      constructor
      · rintro ⟨c, hc⟩; cases hc
      · rintro ⟨h1, -⟩; cases h1
  | Error =>
      rw [if_pos (by simp)]
      constructor
      · rintro ⟨c, hc⟩; cases hc
      · rintro ⟨h1, -⟩; cases h1
  | Integer =>
      rw [if_pos (by simp)]
      constructor
      · rintro ⟨c, hc⟩; cases hc
      · rintro ⟨h1, -⟩; cases h1

/-- C8 witness: a two-element bulk-string array satisfies the
characterisation. -/
theorem c8_witness :
    (∃ c, parseCmd (RespData.arr [RespData.bulk "GET", RespData.bulk "k"]) = .ok c) ↔
      ((RespData.arr [RespData.bulk "GET", RespData.bulk "k"]).ty = .Array
        ∧ (RespData.arr [RespData.bulk "GET", RespData.bulk "k"]).Arr ≠ []
        ∧ ∀ x ∈ (RespData.arr [RespData.bulk "GET", RespData.bulk "k"]).Arr,
            x.ty = .BulkString) :=
  c8_amended (RespData.arr [RespData.bulk "GET", RespData.bulk "k"]) (by decide)

/-- C10: with exactly one argument, KEYS replies identically whatever the
pattern argument is (it is never consulted), replies with the null array when
the keyspace is empty, and otherwise replies with an Array containing exactly
the keys of the keyspace; the handler never touches the database. -/
theorem c10_theorem (cmd : Command) (db : DB) (h : cmd.args.length = 1) :
    (∀ q : String, handleKeysCommand cmd db = handleKeysCommand ⟨cmd.cmd, [q]⟩ db)
    ∧ (db.M = [] → handleKeysCommand cmd db = .nullArr)
    ∧ (db.M ≠ [] → (handleKeysCommand cmd db).ty = .Array ∧
        ∀ k : String, (∃ v, (k, v) ∈ db.M) ↔ RespData.bulk k ∈ (handleKeysCommand cmd db).Arr) := by
  obtain ⟨c, (_ | ⟨p, (_ | ⟨x, t⟩)⟩)⟩ := cmd
  · simp at h
  · refine ⟨fun q => rfl, fun hM => by simp [handleKeysCommand, hM], fun hM => ?_⟩
    have hk : handleKeysCommand ⟨c, [p]⟩ db = .arr (db.M.map (fun p => RespData.bulk p.1)) := by
      simp [handleKeysCommand, hM]
    rw [hk]
    refine ⟨rfl, fun k => ?_⟩
    simp only [RespData.arr, RespData.Arr, List.mem_map, RespData.bulk, RespData.mk.injEq]
    constructor
    · rintro ⟨v, hv⟩
      exact ⟨(k, v), hv, by simp⟩
    · rintro ⟨⟨k2, v⟩, hmem, -, hk2, -⟩
      simp only at hk2
      subst hk2
      exact ⟨v, hmem⟩
  · simp at h

/-- C10 witness: KEYS on a one-key database with an arbitrary pattern. -/
theorem c10_witness :
    (∀ q : String, handleKeysCommand ⟨"keys", ["*"]⟩ (db0.Add "k" "v")
        = handleKeysCommand ⟨"keys", [q]⟩ (db0.Add "k" "v"))
    ∧ ((db0.Add "k" "v").M = [] → handleKeysCommand ⟨"keys", ["*"]⟩ (db0.Add "k" "v") = .nullArr)
    ∧ ((db0.Add "k" "v").M ≠ [] →
        (handleKeysCommand ⟨"keys", ["*"]⟩ (db0.Add "k" "v")).ty = .Array ∧
        ∀ k : String, (∃ v2, (k, v2) ∈ (db0.Add "k" "v").M) ↔
          RespData.bulk k ∈ (handleKeysCommand ⟨"keys", ["*"]⟩ (db0.Add "k" "v")).Arr) :=
  c10_theorem ⟨"keys", ["*"]⟩ (db0.Add "k" "v") rfl

/-- C9 (counterexample): for an unknown command name the reply echoes the
original spelling, so `FOO` and `foo` produce different replies. -/
theorem c9_counterexample :
    executeCommand ⟨"FOO", []⟩ freshConn false db0
      = some (.err "ERR unknown command 'FOO'", freshConn, db0)
    ∧ executeCommand ⟨"foo", []⟩ freshConn false db0
      = some (.err "ERR unknown command 'foo'", freshConn, db0)
    ∧ RespData.err "ERR unknown command 'FOO'" ≠ RespData.err "ERR unknown command 'foo'" := by
  exact ⟨rfl, rfl, by simp [RespData.err]⟩

/-- C9 (amended): for every command whose lowercased name is one of the
supported names, and every session state, executing any case variant yields
the same reply, the same keyspace, and the same session up to the letter case
of queued command names, as executing the all-lowercase name; the
unknown-command error echoes the original spelling, and a queued command is
stored with its original spelling (it replays identically). -/
theorem c9_amended (cmd : Command) (s : ClientConn) (ctx : Bool) (db : DB)
    (h : goToLower cmd.cmd ∈ supportedNames) :
    (executeCommand cmd s ctx db).map lowerRes
      = (executeCommand (lowerCmd cmd) s ctx db).map lowerRes := by
  obtain ⟨c, as⟩ := cmd
  simp only [supportedNames, List.mem_cons, List.not_mem_nil, or_false] at h
  simp only [lowerCmd]
  rcases h with h|h|h|h|h|h|h|h|h|h|h|h|h|h|h|h|h|h|h|h|h|h|h|h
  · cases hq : s.isTransaction && !ctx <;>
      simp [executeCommand, execCore, h, hq, lowerRes, lowerConn, lowerCmd,
            (by decide : goToLower "multi" = "multi"), List.map_append]
  · cases hq : s.isTransaction && !ctx <;>
      simp [executeCommand, execCore, h, hq, lowerRes, lowerConn, lowerCmd,
            (by decide : goToLower "exec" = "exec"), List.map_append]
  · cases hq : s.isTransaction && !ctx <;>
      simp [executeCommand, execCore, h, hq, lowerRes, lowerConn, lowerCmd,
            (by decide : goToLower "discard" = "discard"), List.map_append]
  · cases hq : s.isTransaction && !ctx <;>
      simp [executeCommand, execCore, h, hq, lowerRes, lowerConn, lowerCmd,
            (by decide : goToLower "ping" = "ping"), List.map_append]
  · cases hq : s.isTransaction && !ctx <;>
      simp [executeCommand, execCore, h, hq, lowerRes, lowerConn, lowerCmd,
            (by decide : goToLower "echo" = "echo"), List.map_append]
  · cases hq : s.isTransaction && !ctx <;>
      simp [executeCommand, execCore, h, hq, lowerRes, lowerConn, lowerCmd,
            (by decide : goToLower "set" = "set"), handleSetCommand, List.map_append]
  · cases hq : s.isTransaction && !ctx <;>
      simp [executeCommand, execCore, h, hq, lowerRes, lowerConn, lowerCmd,
            (by decide : goToLower "delete" = "delete"), handleDeleteCommand, List.map_append]
  · cases hq : s.isTransaction && !ctx <;>
      simp [executeCommand, execCore, h, hq, lowerRes, lowerConn, lowerCmd,
            (by decide : goToLower "get" = "get"), handleGetCommand, List.map_append]
  · cases hq : s.isTransaction && !ctx <;>
      simp [executeCommand, execCore, h, hq, lowerRes, lowerConn, lowerCmd,
            (by decide : goToLower "save" = "save"), List.map_append]
  · cases hq : s.isTransaction && !ctx <;>
      simp [executeCommand, execCore, h, hq, lowerRes, lowerConn, lowerCmd,
            (by decide : goToLower "config" = "config"), handleConfigCommand, List.map_append]
  · cases hq : s.isTransaction && !ctx <;>
      simp [executeCommand, execCore, h, hq, lowerRes, lowerConn, lowerCmd,
            (by decide : goToLower "keys" = "keys"), handleKeysCommand, List.map_append]
  · cases hq : s.isTransaction && !ctx <;>
      simp [executeCommand, execCore, h, hq, lowerRes, lowerConn, lowerCmd,
            (by decide : goToLower "info" = "info"), List.map_append]
  · cases hq : s.isTransaction && !ctx <;>
      simp [executeCommand, execCore, h, hq, lowerRes, lowerConn, lowerCmd,
            (by decide : goToLower "incr" = "incr"), handleIncrCommand, List.map_append]
  · cases hq : s.isTransaction && !ctx <;>
      simp [executeCommand, execCore, h, hq, lowerRes, lowerConn, lowerCmd,
            (by decide : goToLower "lpush" = "lpush"), handleLPushCommand, List.map_append]
  · cases hq : s.isTransaction && !ctx <;>
      simp [executeCommand, execCore, h, hq, lowerRes, lowerConn, lowerCmd,
            (by decide : goToLower "rpush" = "rpush"), handleRPushCommand, List.map_append]
  · cases hq : s.isTransaction && !ctx <;>
      simp [executeCommand, execCore, h, hq, lowerRes, lowerConn, lowerCmd,
            (by decide : goToLower "lpop" = "lpop"), handleLPopCommand, List.map_append]
  · cases hq : s.isTransaction && !ctx <;>
      simp [executeCommand, execCore, h, hq, lowerRes, lowerConn, lowerCmd,
            (by decide : goToLower "rpop" = "rpop"), handleRPopCommand, List.map_append]
  · cases hq : s.isTransaction && !ctx <;>
      simp [executeCommand, execCore, h, hq, lowerRes, lowerConn, lowerCmd,
            (by decide : goToLower "llen" = "llen"), handleLLenCommand, List.map_append]
  · cases hq : s.isTransaction && !ctx <;>
      simp [executeCommand, execCore, h, hq, lowerRes, lowerConn, lowerCmd,
            (by decide : goToLower "lrange" = "lrange"), handleLRangeCommand, List.map_append]
  · cases hq : s.isTransaction && !ctx <;>
      simp [executeCommand, execCore, h, hq, lowerRes, lowerConn, lowerCmd,
            (by decide : goToLower "type" = "type"), handleTypeCommand, List.map_append]
  · cases hq : s.isTransaction && !ctx <;>
      simp [executeCommand, execCore, h, hq, lowerRes, lowerConn, lowerCmd,
            (by decide : goToLower "xadd" = "xadd"), handleXAddCommand, List.map_append]
  · cases hq : s.isTransaction && !ctx <;>
      simp [executeCommand, execCore, h, hq, lowerRes, lowerConn, lowerCmd,
            (by decide : goToLower "xlen" = "xlen"), handleXLenCommand, List.map_append]
  · cases hq : s.isTransaction && !ctx <;>
      simp [executeCommand, execCore, h, hq, lowerRes, lowerConn, lowerCmd,
            (by decide : goToLower "xrange" = "xrange"), handleXRangeCommand, List.map_append]
  · cases hq : s.isTransaction && !ctx <;>
      simp [executeCommand, execCore, h, hq, lowerRes, lowerConn, lowerCmd,
            (by decide : goToLower "xread" = "xread"), handleXReadCommand, List.map_append]

/-- C9 witness: `GET` spelled in uppercase on a fresh session. -/
theorem c9_witness :
    (executeCommand ⟨"GET", ["k"]⟩ freshConn false db0).map lowerRes
      = (executeCommand (lowerCmd ⟨"GET", ["k"]⟩) freshConn false db0).map lowerRes :=
  c9_amended ⟨"GET", ["k"]⟩ freshConn false db0 (by decide)

